import Mathlib

/-!
Verification development for the local code-generation agent
(`local_code_ai_agent.py`): a human-in-the-loop pipeline that queries a
local model twice (plan, then code), persists the outputs and optionally
executes the generated script.

Text is modelled as `List Char` (Python `str`).  The subprocess/file/stdin
environment is modelled explicitly: a run is a pure function from an
environment (argv, outcome of each external interaction) to the list of
observable events it performs plus the process exit code.
-/

set_option maxHeartbeats 1000000

namespace AiAgent

/-- Python strings are modelled as lists of characters. -/
abbrev Txt := List Char

/-- The backquote character, the Markdown fence delimiter character. -/
def bq : Char := Char.ofNat 96

/-- Characters removed by Python `str.strip()` with no argument
(ASCII whitespace: space, tab, newline, carriage return, vertical tab,
form feed). -/
def pySpace (c : Char) : Bool :=
  c == ' ' || c == '\t' || c == '\n' || c == '\r' || c == '\x0b' || c == '\x0c'

/-- Python `str.strip()`: drop leading and trailing whitespace. -/
def pyStrip (l : Txt) : Txt :=
  List.rdropWhile pySpace (List.dropWhile pySpace l)

/-- Python `str.replace("\x60\x60\x60", "")`: delete every occurrence of the
three-backquote fence, scanning left to right exactly as CPython does
(non-overlapping occurrences, scan resumes after each deleted occurrence).
This is the second deletion performed by `code_phase` (source line 113). -/
def replDel3 : Txt → Txt
  | c1 :: c2 :: c3 :: rest =>
    if c1 = bq ∧ c2 = bq ∧ c3 = bq then replDel3 rest
    else c1 :: replDel3 (c2 :: c3 :: rest)
  | l => l

/-- Python `str.replace("\x60\x60\x60python", "")`: delete every occurrence
of the language-tagged fence, scanning left to right as CPython does.
This is the first deletion performed by `code_phase` (source line 113). -/
def replDelPy : Txt → Txt
  | c1 :: c2 :: c3 :: c4 :: c5 :: c6 :: c7 :: c8 :: c9 :: rest =>
    if c1 = bq ∧ c2 = bq ∧ c3 = bq ∧ c4 = 'p' ∧ c5 = 'y' ∧ c6 = 't'
        ∧ c7 = 'h' ∧ c8 = 'o' ∧ c9 = 'n' then
      replDelPy rest
    else c1 :: replDelPy (c2 :: c3 :: c4 :: c5 :: c6 :: c7 :: c8 :: c9 :: rest)
  | l => l

/-- The plain fence delimiter as text. -/
def fence3 : Txt := [bq, bq, bq]

/-- The language-tagged fence delimiter as text. -/
def fencePy : Txt := [bq, bq, bq, 'p', 'y', 't', 'h', 'o', 'n']

/-- The markup-stripping pass of the Code Stage, source line 113:
`code_response.replace("\x60\x60\x60python", "").replace("\x60\x60\x60", "").strip()`. -/
def stripMarkup (l : Txt) : Txt :=
  pyStrip (replDel3 (replDelPy l))

/-- Normalisation applied to an approval answer, source lines 169 and 187:
`input(...).strip().lower()`.  `Char.toLower` is the ASCII lowercasing
performed by `str.lower` on the characters this program compares. -/
def normAnswer (l : Txt) : Txt :=
  (pyStrip l).map Char.toLower

/-- The six characters of the language tag. -/
def tagPy : Txt := ['p', 'y', 't', 'h', 'o', 'n']

/-- Decimal rendering of a return code, for interpolated log messages. -/
def natToTxt (n : Nat) : Txt := (toString n).toList

/-- Outcome of one `subprocess.Popen(["ollama", "run", model], ...)` round
trip, source lines 29-39.  `spawned out err rc` is a completed round trip
with captured stdout, stderr text and return code; `fileNotFound` is a
raised `FileNotFoundError` (the executable cannot be located, the spec
taxonomy's ToolNotFound); `otherError` is any other exception from the
attempt (ToolIOFailed). -/
inductive OllamaRes where
  | spawned (out errText : Txt) (returncode : Nat)
  | fileNotFound
  | otherError (msg : Txt)
deriving DecidableEq

/-- Outcome of `subprocess.run([sys.executable, script_path], check=True)`,
source line 144: the generated script ran and exited with `returncode`
(`excRepr` is the rendering of the `CalledProcessError` used in the log
line when the code is non-zero), or the launch itself raised. -/
inductive ScriptRes where
  | exited (returncode : Nat) (excRepr : Txt)
  | launchFail (msg : Txt)
deriving DecidableEq

/-- Observable actions of one run, in order.  `out` and `err` are lines
printed to stdout and stderr; `spawnOllama` is the attempt to start the
model subprocess; `askPlanApproval` and `askExecApproval` are the two
`input(...)` prompts; `writeBundle` and `writeScript` are completed file
writes; `launchScript` is the `subprocess.run` call on the script. -/
inductive Event where
  | out (text : Txt)
  | err (text : Txt)
  | spawnOllama (prompt : Txt)
  | askPlanApproval
  | askExecApproval
  | writeBundle (filename : Txt) (request plan code : Txt)
  | writeScript (path : Txt) (content : Txt)
  | launchScript (path : Txt)
deriving DecidableEq

/-- Terminal position of a run: the terminal states of the spec's state
machine plus the two fatal exits. -/
inductive Final where
  | usageError
  | fatalTool
  | abortedPlan
  | abortedExec
  | done
deriving DecidableEq

/-- Result of one run: its event trace, the process exit code, and where
it stopped. -/
structure RunResult where
  events : List Event
  exitCode : Nat
  final : Final

/-- The external environment of one run: `argv` (element 0 is the program
path), the working directory, the file system at start (path to contents,
`none` when absent), the outcome of each of the two model invocations,
the outcome of the two file writes (`none` is success, `some msg` the
caught exception's message), the two typed approval answers, and the
outcome of running the generated script. -/
structure Env where
  argv : List Txt
  cwd : Txt
  fs0 : Txt → Option Txt
  ollamaPlan : OllamaRes
  ollamaCode : OllamaRes
  bundleErr : Option Txt
  scriptErr : Option Txt
  ans1 : Txt
  ans2 : Txt
  scriptRun : ScriptRes

/-- `query_ollama`, source lines 25-56: one blocking round trip.  Stderr
text is surfaced as a debug line but only a non-zero return code (or a
raised exception) is failure; every failure prints a diagnostic and calls
`sys.exit(1)`, modelled as `Except.error 1`.  On success the stdout text
is returned stripped (line 49). -/
def query_ollama (res : OllamaRes) (prompt : Txt) : List Event × Except Nat Txt :=
  match res with
  | OllamaRes.spawned out errText rc =>
    let evs := Event.spawnOllama prompt ::
      (if errText ≠ [] then [Event.err ("[DEBUG] Ollama STDERR: ".toList ++ errText)] else [])
    if rc ≠ 0 then
      (evs ++ [Event.err ("[ERROR] Ollama process exited with code ".toList ++ natToTxt rc)],
       Except.error 1)
    else
      (evs, Except.ok (pyStrip out))
  | OllamaRes.fileNotFound =>
    ([Event.spawnOllama prompt,
      Event.err "Error: Ollama not found. Ensure it's installed and on PATH.".toList],
     Except.error 1)
  | OllamaRes.otherError msg =>
    ([Event.spawnOllama prompt,
      Event.err ("Error while querying Ollama: ".toList ++ msg)],
     Except.error 1)

/-- `PLAN_SYSTEM_PROMPT`, source lines 10-14, after `dedent` and `strip`. -/
def PLAN_SYSTEM_PROMPT : Txt :=
  ("You are an AI agent that generates a step-by-step plan for a given file or folder creation request.\n"
    ++ "You must detail each step and justify your choices (e.g., using os.makedirs or pathlib) \n"
    ++ "for a Windows environment.").toList

/-- The `full_prompt` built by `plan_phase`, source line 64. -/
def plan_prompt (user_request : Txt) : Txt :=
  PLAN_SYSTEM_PROMPT ++ "\n\nUser request:\n".toList ++ user_request ++ "\n\nPlan:".toList

/-- `plan_phase`, source lines 59-67. -/
def plan_phase (res : OllamaRes) (user_request : Txt) : List Event × Except Nat Txt :=
  let q := query_ollama res (plan_prompt user_request)
  (Event.out "[INFO] Generating plan with Ollama...".toList :: q.1, q.2)

/-- `save_prompt_to_file`, source lines 70-85: writes the
request/plan/code bundle; any exception is caught and logged to stdout,
and the function returns normally either way (non-fatal). -/
def save_prompt_to_file (saveErr : Option Txt) (plan_text code_text user_request : Txt)
    (filename : Txt) : List Event :=
  match saveErr with
  | none =>
    [Event.writeBundle filename user_request plan_text code_text,
     Event.out ("[INFO] Prompts saved to ".toList ++ filename)]
  | some e =>
    [Event.out ("[ERROR] Could not save prompts to file: ".toList ++ e)]

/-- `detect_language`, source lines 88-93: always python. -/
def detect_language (_user_request : Txt) : Txt := "python".toList

/-- The `full_prompt` built by `code_phase`, source lines 100-107. -/
def code_prompt (plan_text user_request : Txt) : Txt :=
  "You are an AI that generates Python code based on the given plan and request.\nPlan:\n".toList
    ++ plan_text ++ "\n\nUser request:\n".toList ++ user_request
    ++ ("\n\nGenerate a clean, executable Python script without markdown formatting, "
        ++ "backticks, or extra explanations.\n"
        ++ "Ensure it works within the current directory and checks for existing files "
        ++ "before writing.\n\nPython Code:\n").toList

/-- `code_phase`, source lines 96-115: builds the code prompt, queries the
model, then removes accidental Markdown formatting with `stripMarkup`. -/
def code_phase (res : OllamaRes) (plan_text user_request : Txt) : List Event × Except Nat Txt :=
  match query_ollama res (code_prompt plan_text user_request) with
  | (evs, Except.ok code_response) =>
    (Event.out "[INFO] Generating Python code with Ollama...".toList :: evs,
     Except.ok (stripMarkup code_response))
  | (evs, Except.error n) =>
    (Event.out "[INFO] Generating Python code with Ollama...".toList :: evs,
     Except.error n)

/-- `os.path.abspath` for the relative filenames this program passes it:
resolution against the current working directory. -/
def os_path_abspath (cwd path : Txt) : Txt := cwd ++ "/".toList ++ path

/-- `save_code_to_file`, source lines 118-129.  The `filename` parameter
is ignored: line 122 rebinds it to `os.path.abspath("generated_script.py")`.
Mode "w" truncates, so a successful write replaces any previous content
with `code_text + "\n"`.  Any exception is caught and logged to stdout;
the function returns normally in both cases. -/
def save_code_to_file (cwd : Txt) (writeErr : Option Txt) (code_text : Txt)
    (filename : Txt) : List Event :=
  let filename := os_path_abspath cwd "generated_script.py".toList
  match writeErr with
  | none =>
    [Event.writeScript filename (code_text ++ "\n".toList),
     Event.out ("[INFO] Code saved to ".toList ++ filename)]
  | some e =>
    [Event.out ("[ERROR] Could not write to ".toList ++ filename ++ ": ".toList ++ e)]

/-- Python `str.endswith`. -/
def pyEndsWith (s suffix : Txt) : Bool := suffix.isSuffixOf s

/-- `execute_script`, source lines 132-149.  `fs` is the ambient file
system at call time; the source consults it nowhere — the only validation
before `subprocess.run` is the extension check on the absolutised path.
A `CalledProcessError` (non-zero script exit) and any launch failure are
caught and logged; the function returns normally in all cases. -/
def execute_script (fs : Txt → Option Txt) (res : ScriptRes) (cwd : Txt)
    (script_path : Txt) : List Event :=
  let script_path := os_path_abspath cwd script_path
  Event.out ("[INFO] Running the script at: ".toList ++ script_path) ::
    (if pyEndsWith script_path ".py".toList = false then
      [Event.out "[ERROR] The generated script does not have a valid Python extension.".toList]
    else
      Event.launchScript script_path ::
        (match res with
         | ScriptRes.exited rc excRepr =>
           if rc = 0 then
             [Event.out "[INFO] Script executed successfully.".toList]
           else
             [Event.out ("[ERROR] Script execution failed with code ".toList
               ++ natToTxt rc ++ ": ".toList ++ excRepr)]
         | ScriptRes.launchFail m =>
           [Event.out ("[ERROR] An unexpected error occurred while running the script: ".toList
             ++ m)]))

/-- Effect of one event on the file system.  Only the script write carries
modelled contents; other events leave the file system unchanged. -/
def applyWrite (fs : Txt → Option Txt) : Event → (Txt → Option Txt)
  | Event.writeScript p c => fun q => if q = p then some c else fs q
  | _ => fs

/-- Left fold of `applyWrite` over a trace. -/
def applyWrites (fs : Txt → Option Txt) (evs : List Event) : Txt → Option Txt :=
  evs.foldl applyWrite fs

/-- `main`, source lines 152-195, as a function of the run environment:
usage check, plan phase, first approval gate, code phase, bundle save,
script save, second approval gate, execution, done. -/
def pymain (env : Env) : RunResult :=
  match env.argv with
  | _prog :: user_request :: _ =>
    let evs0 := [Event.out ("[INFO] Working in directory: ".toList ++ env.cwd)]
    match plan_phase env.ollamaPlan user_request with
    | (evsP, Except.error n) => ⟨evs0 ++ evsP, n, Final.fatalTool⟩
    | (evsP, Except.ok plan_text) =>
      let evs1 := evs0 ++ evsP ++
        [Event.out "\n=== PLAN PHASE OUTPUT ===".toList, Event.out plan_text,
         Event.out "=== END PLAN PHASE OUTPUT ===\n".toList, Event.askPlanApproval]
      if normAnswer env.ans1 ≠ "y".toList then
        ⟨evs1 ++ [Event.out "[INFO] User aborted after Plan Phase.".toList], 0,
         Final.abortedPlan⟩
      else
        match code_phase env.ollamaCode plan_text user_request with
        | (evsC, Except.error n) => ⟨evs1 ++ evsC, n, Final.fatalTool⟩
        | (evsC, Except.ok code_text) =>
          let evs2 := evs1 ++ evsC ++
            [Event.out "\n=== CODE PHASE OUTPUT ===".toList, Event.out code_text,
             Event.out "=== END CODE PHASE OUTPUT ===\n".toList]
          let evsB := save_prompt_to_file env.bundleErr plan_text code_text user_request
            "generated_prompt.json".toList
          let evsS := save_code_to_file env.cwd env.scriptErr code_text
            "generated_script.py".toList
          let evs3 := evs2 ++ evsB ++ evsS ++ [Event.askExecApproval]
          if normAnswer env.ans2 ≠ "y".toList then
            ⟨evs3 ++ [Event.out "[INFO] User aborted before script execution.".toList], 0,
             Final.abortedExec⟩
          else
            let fsNow := applyWrites env.fs0 (evsB ++ evsS)
            let evsE := execute_script fsNow env.scriptRun env.cwd
              "generated_script.py".toList
            ⟨evs3 ++ evsE ++ [Event.out "[INFO] Done.".toList], 0, Final.done⟩
  | _ =>
    ⟨[Event.out "Usage: python local_code_ai_agent.py \"Your request here\"".toList], 1,
     Final.usageError⟩

/-- Event classifier: a model-subprocess invocation attempt. -/
def isSpawn : Event → Bool
  | Event.spawnOllama _ => true
  | _ => false

/-- Event classifier: a completed bundle write. -/
def isWriteBundle : Event → Bool
  | Event.writeBundle _ _ _ _ => true
  | _ => false

/-- Event classifier: a completed script write. -/
def isWriteScript : Event → Bool
  | Event.writeScript _ _ => true
  | _ => false

/-- Event classifier: a `subprocess.run` launch of the script. -/
def isLaunch : Event → Bool
  | Event.launchScript _ => true
  | _ => false

/-- Event classifier: the execution-approval prompt. -/
def isAskExec : Event → Bool
  | Event.askExecApproval => true
  | _ => false

/-- A baseline fully-successful run environment for concrete runs: both
model calls succeed (no stderr text, return code 0), both writes succeed,
both answers are "y", the generated script exits 0, the file system is
empty at start. -/
def envBase : Env where
  argv := ["local_code_ai_agent.py".toList, "create a folder named reports".toList]
  cwd := "/home/user".toList
  fs0 := fun _ => none
  ollamaPlan := OllamaRes.spawned "1. Use a directory-creation call. 2. Check existence first.".toList [] 0
  ollamaCode := OllamaRes.spawned "import os".toList [] 0
  bundleErr := none
  scriptErr := none
  ans1 := "y".toList
  ans2 := "y".toList
  scriptRun := ScriptRes.exited 0 []

/-- envBase with the script write failing and the script run exiting 2. -/
def envC1 : Env :=
  { envBase with scriptErr := some "Errno 13 Permission denied".toList,
                 scriptRun := ScriptRes.exited 2 "CalledProcessError".toList }

/-- envBase with no request argument at all. -/
def envUsage : Env :=
  { envBase with argv := ["local_code_ai_agent.py".toList] }

/-- envBase with an empty-string request and the plan approval answered
"n". -/
def envEmptyReq : Env :=
  { envBase with argv := ["local_code_ai_agent.py".toList, []], ans1 := "n".toList }

/-- envBase with the plan approval answered "n". -/
def envPlanNo : Env :=
  { envBase with ans1 := "n".toList }

/-- envBase with the generated script exiting 3. -/
def envScriptFail : Env :=
  { envBase with scriptRun := ScriptRes.exited 3 "CalledProcessError".toList }

/-- envBase with the model runner executable missing. -/
def envNoTool : Env :=
  { envBase with ollamaPlan := OllamaRes.fileNotFound }

/-- envBase with the plan approval answered "YES" (a full word, not the
single letter). -/
def envYes : Env :=
  { envBase with ans1 := "YES".toList }


theorem fencePy_eq : fencePy = fence3 ++ tagPy := rfl

theorem single_prefix_iff {a : Char} {l : Txt} : [a] <+: l ↔ l.head? = some a := by
  cases l with
  | nil => simp
  | cons x xs => simp [List.cons_prefix_cons, eq_comm]

theorem replDel3_head_ne : ∀ l : Txt, l.head? ≠ some bq → (replDel3 l).head? ≠ some bq
  | [], _ => by simp [replDel3]
  | [x], h => by simpa [replDel3] using h
  | [x, y], h => by simpa [replDel3] using h
  | c1 :: c2 :: c3 :: r, h => by
    have hc : ¬ (c1 = bq) := by simpa using h
    simp [replDel3, hc]

theorem replDel3_no_lead2 : ∀ l : Txt, ¬ ([bq, bq] <+: l) → ¬ ([bq, bq] <+: replDel3 l)
  | [], _ => by simp [replDel3]
  | [x], _ => by simp [replDel3]
  | [x, y], h => by simpa [replDel3] using h
  | c1 :: c2 :: c3 :: r, h => by
    by_cases hcond : c1 = bq ∧ c2 = bq ∧ c3 = bq
    · exact absurd ⟨c3 :: r, by simp [hcond.1, hcond.2.1]⟩ h
    · simp only [replDel3, if_neg hcond]
      intro hp
      rcases (List.cons_prefix_cons).1 hp with ⟨hb1, hp1⟩
      have hc2 : c2 ≠ bq := by
        intro hc2
        exact h ⟨c3 :: r, by simp [← hb1, hc2]⟩
      have hhead : (replDel3 (c2 :: c3 :: r)).head? ≠ some bq :=
        replDel3_head_ne _ (by simpa using hc2)
      exact hhead (single_prefix_iff.1 hp1)

theorem replDel3_no_fence (l : Txt) : ¬ (fence3 <:+: replDel3 l) := by
  induction l using replDel3.induct with
  | case1 c1 c2 c3 rest hcond ih =>
    simpa [replDel3, hcond] using ih
  | case2 c1 c2 c3 rest hcond ih =>
    simp only [replDel3, if_neg hcond]
    intro hinf
    rcases List.infix_cons_iff.1 hinf with hp | hi
    · rcases (List.cons_prefix_cons).1 hp with ⟨hb1, hp1⟩
      have h2 : ¬ ([bq, bq] <+: (c2 :: c3 :: rest)) := by
        intro h2
        rcases (List.cons_prefix_cons).1 h2 with ⟨hb2, hp2⟩
        rcases (List.cons_prefix_cons).1 hp2 with ⟨hb3, _⟩
        exact hcond ⟨hb1.symm, hb2.symm, hb3.symm⟩
      exact replDel3_no_lead2 _ h2 hp1
    · exact ih hi
  | case3 l hshape =>
    have hlen : l.length ≤ 2 := by
      match l with
      | [] => simp
      | [x] => simp
      | [x, y] => simp
      | x :: y :: z :: r => exact absurd rfl (by intro hh; exact hshape x y z r hh)
    have : replDel3 l = l := by
      match l with
      | [] => rfl
      | [x] => rfl
      | [x, y] => rfl
      | x :: y :: z :: r => exact absurd rfl (by intro hh; exact hshape x y z r hh)
    rw [this]
    intro hinf
    have := hinf.length_le
    simp [fence3] at this
    omega

theorem replDel3_eq_self (l : Txt) (h : ¬ (fence3 <:+: l)) : replDel3 l = l := by
  induction l using replDel3.induct with
  | case1 c1 c2 c3 rest hcond ih =>
    exact absurd (List.IsPrefix.isInfix ⟨rest, by simp [fence3, hcond.1, hcond.2.1, hcond.2.2]⟩) h
  | case2 c1 c2 c3 rest hcond ih =>
    simp only [replDel3, if_neg hcond]
    rw [ih (fun hi => h (List.infix_cons hi))]
  | case3 l hshape =>
    match l with
    | [] => rfl
    | [x] => rfl
    | [x, y] => rfl
    | x :: y :: z :: r => exact absurd rfl (by intro hh; exact hshape x y z r hh)

theorem replDelPy_eq_self (l : Txt) (h : ¬ (fencePy <:+: l)) : replDelPy l = l := by
  induction l using replDelPy.induct with
  | case1 c1 c2 c3 c4 c5 c6 c7 c8 c9 rest hcond ih =>
    refine absurd (List.IsPrefix.isInfix ⟨rest, ?_⟩) h
    obtain ⟨h1, h2, h3, h4, h5, h6, h7, h8, h9⟩ := hcond
    simp [fencePy, h1, h2, h3, h4, h5, h6, h7, h8, h9]
  | case2 c1 c2 c3 c4 c5 c6 c7 c8 c9 rest hcond ih =>
    simp only [replDelPy, if_neg hcond]
    rw [ih (fun hi => h (List.infix_cons hi))]
  | case3 l hshape =>
    match l with
    | [] => rfl
    | [x] => rfl
    | [x, y] => rfl
    | [x, y, z] => rfl
    | [x, y, z, w] => rfl
    | [x, y, z, w, v] => rfl
    | [x, y, z, w, v, u] => rfl
    | [x, y, z, w, v, u, s] => rfl
    | [x, y, z, w, v, u, s, q] => rfl
    | x :: y :: z :: w :: v :: u :: s :: q :: n :: r =>
      exact absurd rfl (by intro hh; exact hshape x y z w v u s q n r hh)

theorem replDel3_fence_prepend (X : Txt) : replDel3 (fence3 ++ X) = replDel3 X := by
  simp [fence3, replDel3]

theorem replDelPy_fence_prepend (X : Txt) : replDelPy (fencePy ++ X) = replDelPy X := by
  simp [fencePy, replDelPy]

theorem replDel3_append_fence :
    ∀ c : Txt, ¬ (fence3 <:+: c) → replDel3 (c ++ fence3) = c
  | [], _ => by simp [fence3, replDel3]
  | [x], _ => by
    by_cases hx : x = bq
    · simp [fence3, replDel3, hx]
    · simp [fence3, replDel3, hx]
  | [x, y], _ => by
    by_cases hx : x = bq
    · by_cases hy : y = bq
      · simp [fence3, replDel3, hx, hy]
      · simp [fence3, replDel3, hx, hy]
    · by_cases hy : y = bq
      · simp [fence3, replDel3, hx, hy]
      · simp [fence3, replDel3, hx, hy]
  | x :: y :: z :: r, h => by
    have hcond : ¬ (x = bq ∧ y = bq ∧ z = bq) := by
      intro hc
      exact h (List.IsPrefix.isInfix ⟨r, by simp [fence3, hc.1, hc.2.1, hc.2.2]⟩)
    have htail : ¬ (fence3 <:+: (y :: z :: r)) := fun hi => h (List.infix_cons hi)
    calc replDel3 ((x :: y :: z :: r) ++ fence3)
        = x :: replDel3 ((y :: z :: r) ++ fence3) := by
          simp only [List.cons_append, replDel3, if_neg hcond, List.append_eq]
      _ = x :: (y :: z :: r) := by rw [replDel3_append_fence (y :: z :: r) htail]

theorem fencePy_not_infix_append (c : Txt) (h : ¬ (fence3 <:+: c)) :
    ¬ (fencePy <:+: (c ++ fence3)) := by
  rintro ⟨s, t, hst⟩
  have hle : (s ++ fence3).length ≤ c.length := by
    have hlc := congrArg List.length hst
    simp [fencePy, fence3] at hlc
    simp only [List.length_append, fence3, List.length_cons, List.length_nil]
    omega
  have hpre : (s ++ fence3) <+: (c ++ fence3) := by
    refine ⟨tagPy ++ t, ?_⟩
    calc s ++ fence3 ++ (tagPy ++ t) = s ++ (fence3 ++ tagPy) ++ t := by
          simp [List.append_assoc]
      _ = s ++ fencePy ++ t := by rw [← fencePy_eq]
      _ = c ++ fence3 := hst
  have hpc : (s ++ fence3) <+: c :=
    List.prefix_of_prefix_length_le hpre (List.prefix_append c fence3) hle
  obtain ⟨u, hu⟩ := hpc
  exact h ⟨s, u, by simpa [List.append_assoc] using hu⟩

theorem dropWhile_prefix_fixed {p : Char → Bool} {q m : Txt} (hq : q <+: m)
    (hm : List.dropWhile p m = m) : List.dropWhile p q = q := by
  rw [List.dropWhile_eq_self_iff] at hm ⊢
  intro hl
  have hlm : 0 < m.length := lt_of_lt_of_le hl hq.length_le
  have := hm hlm
  rwa [← List.IsPrefix.get_eq hq hl] at this

theorem pyStrip_left_fixed (l : Txt) :
    List.dropWhile pySpace (pyStrip l) = pyStrip l := by
  unfold pyStrip
  exact dropWhile_prefix_fixed (List.rdropWhile_prefix _ _)
    (List.dropWhile_idempotent _ _)

theorem pyStrip_idem (l : Txt) : pyStrip (pyStrip l) = pyStrip l := by
  conv_lhs => rw [pyStrip, pyStrip_left_fixed]
  rw [pyStrip, List.rdropWhile_idempotent]

theorem pyStrip_infix_self (l : Txt) : pyStrip l <:+: l :=
  List.IsInfix.trans (List.IsPrefix.isInfix (List.rdropWhile_prefix _ _))
    (List.IsSuffix.isInfix (List.dropWhile_suffix _))

theorem fence3_infix_of_fencePy {l : Txt} (h : fencePy <:+: l) : fence3 <:+: l :=
  List.IsInfix.trans (List.IsPrefix.isInfix ⟨tagPy, fencePy_eq.symm⟩) h

theorem stripMarkup_no_fence3 (t : Txt) : ¬ (fence3 <:+: stripMarkup t) := fun h =>
  replDel3_no_fence (replDelPy t) (h.trans (pyStrip_infix_self _))

theorem stripMarkup_no_fencePy (t : Txt) : ¬ (fencePy <:+: stripMarkup t) := fun h =>
  stripMarkup_no_fence3 t (fence3_infix_of_fencePy h)

theorem stripMarkup_tagged (c : Txt) (h : ¬ (fence3 <:+: c)) :
    stripMarkup (fencePy ++ c ++ fence3) = pyStrip c := by
  unfold stripMarkup
  rw [List.append_assoc, replDelPy_fence_prepend,
    replDelPy_eq_self _ (fencePy_not_infix_append c h),
    replDel3_append_fence c h]

theorem stripMarkup_plain (c : Txt) (h : ¬ (fence3 <:+: c))
    (hpy : ¬ (fencePy <:+: (fence3 ++ c ++ fence3))) :
    stripMarkup (fence3 ++ c ++ fence3) = pyStrip c := by
  unfold stripMarkup
  rw [replDelPy_eq_self _ hpy, List.append_assoc, replDel3_fence_prepend,
    replDel3_append_fence c h]

theorem pyEndsWith_script (cwd : Txt) :
    pyEndsWith (os_path_abspath cwd "generated_script.py".toList) ".py".toList = true := by
  simp only [pyEndsWith, os_path_abspath]
  rw [List.isSuffixOf_iff_suffix]
  have h1 : ".py".toList <:+ "generated_script.py".toList := by decide
  exact h1.trans (List.suffix_append _ _)

theorem query_ollama_spawn_count (res : OllamaRes) (prompt : Txt) :
    (query_ollama res prompt).1.countP isSpawn = 1 := by
  cases res with
  | spawned o e rc =>
    by_cases he : e = [] <;> by_cases hrc : rc = 0 <;>
      simp [query_ollama, he, hrc, isSpawn, List.countP_cons, List.countP_append]
  | fileNotFound => simp [query_ollama, isSpawn, List.countP_cons]
  | otherError m => simp [query_ollama, isSpawn, List.countP_cons]

theorem query_ollama_quiet (res : OllamaRes) (prompt : Txt) :
    (query_ollama res prompt).1.any isWriteBundle = false ∧
    (query_ollama res prompt).1.any isWriteScript = false ∧
    (query_ollama res prompt).1.any isLaunch = false ∧
    (query_ollama res prompt).1.any isAskExec = false := by
  cases res with
  | spawned o e rc =>
    by_cases he : e = [] <;> by_cases hrc : rc = 0 <;>
      simp [query_ollama, he, hrc, isWriteBundle, isWriteScript, isLaunch, isAskExec,
        List.any_append]
  | fileNotFound => simp [query_ollama, isWriteBundle, isWriteScript, isLaunch, isAskExec]
  | otherError m => simp [query_ollama, isWriteBundle, isWriteScript, isLaunch, isAskExec]

theorem plan_phase_spawn_count (res : OllamaRes) (r : Txt) :
    (plan_phase res r).1.countP isSpawn = 1 := by
  have h := query_ollama_spawn_count res (plan_prompt r)
  simp only [plan_phase, List.countP_cons, isSpawn, h]
  simp

theorem plan_phase_quiet (res : OllamaRes) (r : Txt) :
    (plan_phase res r).1.any isWriteBundle = false ∧
    (plan_phase res r).1.any isWriteScript = false ∧
    (plan_phase res r).1.any isLaunch = false ∧
    (plan_phase res r).1.any isAskExec = false := by
  obtain ⟨h1, h2, h3, h4⟩ := query_ollama_quiet res (plan_prompt r)
  simp only [plan_phase, List.any_cons, isWriteBundle, isWriteScript, isLaunch, isAskExec,
    Bool.false_or, h1, h2, h3, h4]
  exact ⟨trivial, trivial, trivial, trivial⟩

theorem code_phase_quiet (res : OllamaRes) (pl r : Txt) :
    (code_phase res pl r).1.any isWriteBundle = false ∧
    (code_phase res pl r).1.any isWriteScript = false ∧
    (code_phase res pl r).1.any isLaunch = false ∧
    (code_phase res pl r).1.any isAskExec = false := by
  obtain ⟨h1, h2, h3, h4⟩ := query_ollama_quiet res (code_prompt pl r)
  cases hq : query_ollama res (code_prompt pl r) with
  | mk evs rr =>
    rw [hq] at h1 h2 h3 h4
    cases rr <;>
      simp only [code_phase, hq, List.any_cons, isWriteBundle, isWriteScript, isLaunch,
        isAskExec, Bool.false_or] <;>
      exact ⟨h1, h2, h3, h4⟩

theorem code_phase_spawn_count (res : OllamaRes) (pl r : Txt) :
    (code_phase res pl r).1.countP isSpawn = 1 := by
  have h := query_ollama_spawn_count res (code_prompt pl r)
  cases hq : query_ollama res (code_prompt pl r) with
  | mk evs rr =>
    rw [hq] at h
    cases rr <;>
      simp [code_phase, hq, List.countP_cons, isSpawn, h]

/-- C5: a rejected first (plan) approval terminates the run in the Aborted
state with exit code 0, with exactly one model invocation (the plan call)
and no bundle write, no script write, no script launch, and no
execution-approval prompt. -/
theorem C5_plan_reject_aborts (env : Env) (p r : Txt) (rest : List Txt)
    (hargv : env.argv = p :: r :: rest)
    (o e : Txt) (hplan : env.ollamaPlan = OllamaRes.spawned o e 0)
    (hans : normAnswer env.ans1 ≠ "y".toList) :
    (pymain env).final = Final.abortedPlan ∧ (pymain env).exitCode = 0 ∧
    (pymain env).events.countP isSpawn = 1 ∧
    (pymain env).events.any isWriteBundle = false ∧
    (pymain env).events.any isWriteScript = false ∧
    (pymain env).events.any isLaunch = false ∧
    (pymain env).events.any isAskExec = false := by
  have hans' : ¬ (normAnswer env.ans1 = ['y']) := by simpa using hans
  rcases eq_or_ne e [] with he | he <;>
    simp [pymain, hargv, hplan, plan_phase, query_ollama, hans', he,
      isSpawn, isWriteBundle, isWriteScript, isLaunch, isAskExec,
      List.any_append, List.countP_append, List.countP_cons]

/-- C6: with both approvals affirmative and the generated script's
subprocess exiting non-zero, the run still reaches Done and the host
process exits 0, and the script's failing exit code is logged (the
CalledProcessError message) rather than raised. -/
theorem C6_script_failure_reaches_done (env : Env) (p r : Txt) (rest : List Txt)
    (hargv : env.argv = p :: r :: rest)
    (o1 e1 o2 e2 : Txt)
    (hplan : env.ollamaPlan = OllamaRes.spawned o1 e1 0)
    (hcode : env.ollamaCode = OllamaRes.spawned o2 e2 0)
    (hans1 : normAnswer env.ans1 = "y".toList)
    (hans2 : normAnswer env.ans2 = "y".toList)
    (rc : Nat) (er : Txt) (hrun : env.scriptRun = ScriptRes.exited rc er)
    (hrc : rc ≠ 0) :
    (pymain env).final = Final.done ∧ (pymain env).exitCode = 0 ∧
    Event.out ("[ERROR] Script execution failed with code ".toList
      ++ natToTxt rc ++ ": ".toList ++ er) ∈ (pymain env).events := by
  have h1 : normAnswer env.ans1 = ['y'] := by simpa using hans1
  have h2 : normAnswer env.ans2 = ['y'] := by simpa using hans2
  have hE := pyEndsWith_script env.cwd
  simp at hE
  cases hbe : env.bundleErr <;> cases hse : env.scriptErr <;>
    rcases eq_or_ne e1 [] with he1 | he1 <;> rcases eq_or_ne e2 [] with he2 | he2 <;>
      simp [pymain, hargv, hplan, hcode, plan_phase, code_phase, query_ollama,
        save_prompt_to_file, save_code_to_file, execute_script, hE,
        h1, h2, hbe, hse, he1, he2, hrun, hrc]

/-- C7: when the model runner executable cannot be located
(FileNotFoundError, the spec's ToolNotFound) at whichever of the two
invocations is reached, the run exits with code 1 and neither the bundle
file nor the script file is ever written. -/
theorem C7_toolNotFound_no_writes (env : Env) (p r : Txt) (rest : List Txt)
    (hargv : env.argv = p :: r :: rest)
    (hnf : env.ollamaPlan = OllamaRes.fileNotFound ∨
      (normAnswer env.ans1 = "y".toList ∧ env.ollamaCode = OllamaRes.fileNotFound)) :
    (pymain env).exitCode = 1 ∧
    (pymain env).events.any isWriteBundle = false ∧
    (pymain env).events.any isWriteScript = false := by
  rcases hnf with hp | ⟨hans, hcode⟩
  · simp [pymain, hargv, hp, plan_phase, query_ollama, isWriteBundle, isWriteScript,
      List.any_append]
  · have h1 : normAnswer env.ans1 = ['y'] := by simpa using hans
    cases hpl : env.ollamaPlan with
    | spawned o e rc =>
      by_cases hrc : rc = 0 <;> rcases eq_or_ne e [] with he | he <;>
        simp [pymain, hargv, hpl, hcode, plan_phase, code_phase, query_ollama,
          h1, hrc, he, isWriteBundle, isWriteScript, List.any_append]
    | fileNotFound =>
      simp [pymain, hargv, hpl, plan_phase, query_ollama, isWriteBundle, isWriteScript,
        List.any_append]
    | otherError m =>
      simp [pymain, hargv, hpl, plan_phase, query_ollama, isWriteBundle, isWriteScript,
        List.any_append]

/-- The Execution Gate emits no write, no approval prompt and no model
invocation, whatever the outcome and whatever the file system. -/
theorem execute_script_quiet (fs : Txt → Option Txt) (res : ScriptRes) (cwd path : Txt) :
    (execute_script fs res cwd path).any isWriteScript = false ∧
    (execute_script fs res cwd path).any isWriteBundle = false ∧
    (execute_script fs res cwd path).any isAskExec = false ∧
    (execute_script fs res cwd path).any isSpawn = false := by
  refine ⟨?_, ?_, ?_, ?_⟩ <;>
    (simp only [execute_script]
     split
     · simp [isWriteScript, isWriteBundle, isAskExec, isSpawn]
     · split
       · split <;> simp [isWriteScript, isWriteBundle, isAskExec, isSpawn]
       · simp [isWriteScript, isWriteBundle, isAskExec, isSpawn])

/-- Whenever a request argument is present at all, the plan-phase model
invocation appears in the trace: the run always reaches the Plan Stage. -/
theorem pymain_spawn_always (env : Env) (p r : Txt) (rest : List Txt)
    (hargv : env.argv = p :: r :: rest) :
    (pymain env).events.any isSpawn = true := by
  cases hpl : env.ollamaPlan with
  | fileNotFound =>
    simp [pymain, hargv, hpl, plan_phase, query_ollama, isSpawn, List.any_append]
  | otherError m =>
    simp [pymain, hargv, hpl, plan_phase, query_ollama, isSpawn, List.any_append]
  | spawned o e rc =>
    by_cases hrc : rc = 0
    · subst hrc
      rcases eq_or_ne (normAnswer env.ans1) ['y'] with h1 | h1
      · cases hco : env.ollamaCode with
        | fileNotFound =>
          simp [pymain, hargv, hpl, hco, plan_phase, code_phase, query_ollama, h1,
            isSpawn, List.any_append]
        | otherError m =>
          simp [pymain, hargv, hpl, hco, plan_phase, code_phase, query_ollama, h1,
            isSpawn, List.any_append]
        | spawned o2 e2 rc2 =>
          by_cases hrc2 : rc2 = 0
          · subst hrc2
            rcases eq_or_ne (normAnswer env.ans2) ['y'] with h2 | h2 <;>
              simp [pymain, hargv, hpl, hco, plan_phase, code_phase, query_ollama, h1, h2,
                isSpawn, List.any_append]
          · simp [pymain, hargv, hpl, hco, plan_phase, code_phase, query_ollama, h1, hrc2,
              isSpawn, List.any_append]
      · simp [pymain, hargv, hpl, plan_phase, query_ollama, h1, isSpawn, List.any_append]
    · simp [pymain, hargv, hpl, plan_phase, query_ollama, hrc, isSpawn, List.any_append]

/-- C1 counterexample: in the concrete run envC1 the script write fails,
yet the run still issues the execution-approval prompt, still launches
the script, and exits 0 — the save failure did not halt the run before
the gate, contradicting the claim. -/
theorem C1_counterexample :
    (pymain envC1).events.any isAskExec = true ∧
    (pymain envC1).events.any isLaunch = true ∧
    (pymain envC1).events.any isWriteScript = false ∧
    (pymain envC1).exitCode = 0 := by
  refine ⟨?_, ?_, ?_, ?_⟩ <;> decide

/-- C1 amended: an I/O failure in `save_code_to_file` is caught and
logged, and the run continues: the execution-approval prompt is still
issued, the process exit code is still 0, and no script write occurs. -/
theorem C1_amended_script_save_nonfatal (env : Env) (p r : Txt) (rest : List Txt)
    (hargv : env.argv = p :: r :: rest)
    (o1 e1 o2 e2 m : Txt)
    (hplan : env.ollamaPlan = OllamaRes.spawned o1 e1 0)
    (hcode : env.ollamaCode = OllamaRes.spawned o2 e2 0)
    (hans1 : normAnswer env.ans1 = "y".toList)
    (hse : env.scriptErr = some m) :
    (pymain env).events.any isAskExec = true ∧
    (pymain env).events.any isWriteScript = false ∧
    (pymain env).exitCode = 0 := by
  have h1 : normAnswer env.ans1 = ['y'] := by simpa using hans1
  cases hbe : env.bundleErr <;>
    rcases eq_or_ne (normAnswer env.ans2) ['y'] with h2 | h2 <;>
      simp [pymain, hargv, hplan, hcode, plan_phase, code_phase, query_ollama,
        save_prompt_to_file, save_code_to_file, hse, h1, h2, hbe,
        execute_script_quiet, isAskExec, isWriteScript, List.any_append]

/-- C1 amended witness at a concrete input. -/
theorem C1_amended_witness :
    (pymain envC1).events.any isAskExec = true ∧
    (pymain envC1).events.any isWriteScript = false ∧
    (pymain envC1).exitCode = 0 := by
  exact C1_amended_script_save_nonfatal envC1 _ _ _ rfl _ _ _ _
    "Errno 13 Permission denied".toList rfl rfl (by decide) rfl

/-- C4 counterexample: with no request argument the usage message is
printed to standard output (an `Event.out`, not the diagnostic channel),
and an empty-string request is not rejected: that run invokes the model
subprocess and exits 0. -/
theorem C4_counterexample :
    ((pymain envUsage).events =
      [Event.out "Usage: python local_code_ai_agent.py \"Your request here\"".toList] ∧
     (pymain envUsage).exitCode = 1) ∧
    ((pymain envEmptyReq).events.any isSpawn = true ∧
     (pymain envEmptyReq).exitCode = 0) := by
  refine ⟨⟨?_, ?_⟩, ?_, ?_⟩ <;> decide

/-- C4 amended: only a missing positional argument aborts at startup, with
the usage message on standard output and exit code 1 and nothing else
done; an empty-string request is accepted and the run proceeds into the
plan phase (the model is invoked). -/
theorem C4_amended_usage_check (env env2 : Env) (p : Txt) (rest : List Txt)
    (hlen : env.argv.length < 2)
    (hargv2 : env2.argv = p :: [] :: rest) :
    pymain env =
      ⟨[Event.out "Usage: python local_code_ai_agent.py \"Your request here\"".toList],
        1, Final.usageError⟩ ∧
    (pymain env2).events.any isSpawn = true := by
  constructor
  · match hargv : env.argv with
    | [] => simp [pymain, hargv]
    | [a] => simp [pymain, hargv]
    | a :: b :: t =>
      rw [hargv] at hlen
      simp only [List.length_cons] at hlen
      omega
  · exact pymain_spawn_always env2 p [] rest hargv2

/-- C4 amended witness at concrete inputs. -/
theorem C4_amended_witness :
    pymain envUsage =
      ⟨[Event.out "Usage: python local_code_ai_agent.py \"Your request here\"".toList],
        1, Final.usageError⟩ ∧
    (pymain envEmptyReq).events.any isSpawn = true := by
  exact (C4_amended_usage_check envUsage envEmptyReq
    "local_code_ai_agent.py".toList [] (by decide) rfl)

/-- C5 witness at a concrete input. -/
theorem C5_witness :
    (pymain envPlanNo).final = Final.abortedPlan ∧ (pymain envPlanNo).exitCode = 0 ∧
    (pymain envPlanNo).events.countP isSpawn = 1 ∧
    (pymain envPlanNo).events.any isWriteBundle = false ∧
    (pymain envPlanNo).events.any isWriteScript = false ∧
    (pymain envPlanNo).events.any isLaunch = false ∧
    (pymain envPlanNo).events.any isAskExec = false :=
  C5_plan_reject_aborts envPlanNo _ _ _ rfl _ _ rfl (by decide)

/-- C6 witness at a concrete input: the script exits 3. -/
theorem C6_witness :
    (pymain envScriptFail).final = Final.done ∧ (pymain envScriptFail).exitCode = 0 ∧
    Event.out ("[ERROR] Script execution failed with code ".toList
      ++ natToTxt 3 ++ ": ".toList ++ "CalledProcessError".toList)
      ∈ (pymain envScriptFail).events :=
  C6_script_failure_reaches_done envScriptFail _ _ _ rfl _ _ _ _ rfl rfl
    (by decide) (by decide) 3 _ rfl (by decide)

/-- C7 witness at a concrete input: the model runner is missing at the
plan call. -/
theorem C7_witness :
    (pymain envNoTool).exitCode = 1 ∧
    (pymain envNoTool).events.any isWriteBundle = false ∧
    (pymain envNoTool).events.any isWriteScript = false :=
  C7_toolNotFound_no_writes envNoTool _ _ _ rfl (Or.inl rfl)

/-- C2 counterexample: the ambient file system is empty — no file exists
at any path, in particular not at the absolutised script path — yet
`execute_script` on the .py path still emits the subprocess launch:
existence is never checked, so the claimed precondition does not hold. -/
theorem C2_counterexample :
    ((execute_script (fun _ => none) (ScriptRes.exited 2 "CalledProcessError".toList)
        "/work".toList "generated_script.py".toList).any isLaunch = true) ∧
    ((fun _ => (none : Option Txt))
        (os_path_abspath "/work".toList "generated_script.py".toList) = none) :=
  ⟨by decide, rfl⟩

/-- C2 amended: `execute_script` validates only the extension of the
absolutised path: it launches the interpreter subprocess exactly when
that path ends in ".py"; its behaviour is independent of the file system
(no existence check); and on extension failure it prints the validation
error and performs no launch. -/
theorem C2_amended_extension_only (fs fs2 : Txt → Option Txt) (res : ScriptRes)
    (cwd path : Txt) :
    ((execute_script fs res cwd path).any isLaunch
        = pyEndsWith (os_path_abspath cwd path) ".py".toList) ∧
    execute_script fs res cwd path = execute_script fs2 res cwd path ∧
    (pyEndsWith (os_path_abspath cwd path) ".py".toList = false →
      execute_script fs res cwd path =
        [Event.out ("[INFO] Running the script at: ".toList ++ os_path_abspath cwd path),
         Event.out "[ERROR] The generated script does not have a valid Python extension.".toList]) := by
  refine ⟨?_, rfl, ?_⟩
  · simp only [execute_script]
    split
    · rename_i h
      simp only [List.any_cons, List.any_nil, isLaunch, h]
      simp
    · rename_i h
      simp only [Bool.not_eq_false] at h
      simp only [List.any_cons, isLaunch, h]
      simp
  · intro h
    simp only [execute_script, h]
    simp

/-- C3 counterexample: the script path is not one and the same across
runs — it depends on the working directory: two successful saves from
different directories write to two different absolute paths. -/
theorem C3_counterexample :
    Event.writeScript "/alpha/generated_script.py".toList ("print(1)".toList ++ "\n".toList)
        ∈ save_code_to_file "/alpha".toList none "print(1)".toList "generated_script.py".toList ∧
    Event.writeScript "/beta/generated_script.py".toList ("print(1)".toList ++ "\n".toList)
        ∈ save_code_to_file "/beta".toList none "print(1)".toList "generated_script.py".toList ∧
    ("/alpha/generated_script.py".toList : Txt) ≠ "/beta/generated_script.py".toList := by
  refine ⟨?_, ?_, ?_⟩ <;> decide

/-- C3 amended: for a fixed working directory the save always resolves to
the same absolute path cwd/generated_script.py independent of the
filename argument, and a successful write truncates: whatever the prior
file system, afterwards the file holds exactly the code text plus one
trailing newline. -/
theorem C3_amended_fixed_path_truncating (cwd code fn1 fn2 : Txt) (fs : Txt → Option Txt) :
    save_code_to_file cwd none code fn1 = save_code_to_file cwd none code fn2 ∧
    applyWrites fs (save_code_to_file cwd none code fn1)
        (os_path_abspath cwd "generated_script.py".toList) = some (code ++ "\n".toList) ∧
    (save_code_to_file cwd none code fn1).any isWriteScript = true := by
  refine ⟨rfl, ?_, ?_⟩
  · simp [save_code_to_file, applyWrites, applyWrite]
  · simp [save_code_to_file, isWriteScript]

/-- C8: the markup-stripping pass of the Code Stage is idempotent. -/
theorem C8_strip_idempotent (t : Txt) : stripMarkup (stripMarkup t) = stripMarkup t := by
  have h3 : ¬ (fence3 <:+: stripMarkup t) := stripMarkup_no_fence3 t
  have hPy : ¬ (fencePy <:+: stripMarkup t) := stripMarkup_no_fencePy t
  show pyStrip (replDel3 (replDelPy (stripMarkup t))) = stripMarkup t
  rw [replDelPy_eq_self _ hPy, replDel3_eq_self _ h3]
  show pyStrip (pyStrip (replDel3 (replDelPy t))) = stripMarkup t
  rw [pyStrip_idem]
  rfl

/-- C9 counterexample: a plain-fence response whose enclosed code begins
with the word "python": the tagged-fence deletion runs first and consumes
the opening plain fence together with that word, so the stripped output
is not the enclosed code trimmed. -/
theorem C9_counterexample :
    stripMarkup ("```".toList ++ "python x".toList ++ "```".toList) = "x".toList ∧
    pyStrip "python x".toList = "python x".toList ∧
    ("x".toList : Txt) ≠ "python x".toList := by
  refine ⟨?_, ?_, ?_⟩ <;> decide

/-- C9 amended: for fenced responses whose enclosed code contains no
plain fence delimiter — and, for a plain opening fence, whose full text
contains no language-tagged delimiter — the stripped output is exactly
the enclosed code trimmed; the output never retains either delimiter;
and on the spec scenario the CodeArtifact is exactly the two code lines. -/
theorem C9_amended_strip_correct :
    (∀ c : Txt, ¬ (fence3 <:+: c) →
      stripMarkup (fencePy ++ c ++ fence3) = pyStrip c) ∧
    (∀ c : Txt, ¬ (fence3 <:+: c) → ¬ (fencePy <:+: (fence3 ++ c ++ fence3)) →
      stripMarkup (fence3 ++ c ++ fence3) = pyStrip c) ∧
    (∀ t : Txt, ¬ (fence3 <:+: stripMarkup t) ∧ ¬ (fencePy <:+: stripMarkup t)) ∧
    stripMarkup "```python\nimport os\nos.makedirs('reports', exist_ok=True)\n```".toList
      = "import os\nos.makedirs('reports', exist_ok=True)".toList :=
  ⟨stripMarkup_tagged, stripMarkup_plain,
   fun t => ⟨stripMarkup_no_fence3 t, stripMarkup_no_fencePy t⟩, by decide⟩

/-- A rejected plan approval ends the run abortedPlan with exit 0. -/
theorem pymain_abortPlan_of_no (env : Env) (p r : Txt) (rest : List Txt)
    (hargv : env.argv = p :: r :: rest) (o e : Txt)
    (hplan : env.ollamaPlan = OllamaRes.spawned o e 0)
    (h1 : ¬ (normAnswer env.ans1 = ['y'])) :
    (pymain env).final = Final.abortedPlan ∧ (pymain env).exitCode = 0 := by
  simp [pymain, hargv, hplan, plan_phase, query_ollama, h1]

/-- After an affirmative plan approval the run never ends abortedPlan. -/
theorem pymain_not_abortPlan (env : Env) (p r : Txt) (rest : List Txt)
    (hargv : env.argv = p :: r :: rest) (o e : Txt)
    (hplan : env.ollamaPlan = OllamaRes.spawned o e 0)
    (h1 : normAnswer env.ans1 = ['y']) :
    (pymain env).final ≠ Final.abortedPlan := by
  cases hco : env.ollamaCode with
  | fileNotFound =>
    simp [pymain, hargv, hplan, hco, plan_phase, code_phase, query_ollama, h1]
  | otherError m =>
    simp [pymain, hargv, hplan, hco, plan_phase, code_phase, query_ollama, h1]
  | spawned o2 e2 rc2 =>
    by_cases hrc2 : rc2 = 0
    · subst hrc2
      rcases eq_or_ne (normAnswer env.ans2) ['y'] with h2 | h2 <;>
        simp [pymain, hargv, hplan, hco, plan_phase, code_phase, query_ollama, h1, h2]
    · simp [pymain, hargv, hplan, hco, plan_phase, code_phase, query_ollama, h1, hrc2]

/-- A rejected execution approval (with the path to it open) ends the run
abortedExec with exit 0. -/
theorem pymain_abortExec_of_no (env : Env) (p r : Txt) (rest : List Txt)
    (hargv : env.argv = p :: r :: rest) (o1 e1 o2 e2 : Txt)
    (hplan : env.ollamaPlan = OllamaRes.spawned o1 e1 0)
    (hcode : env.ollamaCode = OllamaRes.spawned o2 e2 0)
    (h1 : normAnswer env.ans1 = ['y'])
    (h2 : ¬ (normAnswer env.ans2 = ['y'])) :
    (pymain env).final = Final.abortedExec ∧ (pymain env).exitCode = 0 := by
  simp [pymain, hargv, hplan, hcode, plan_phase, code_phase, query_ollama, h1, h2]

/-- After both affirmative approvals the run ends Done with exit 0. -/
theorem pymain_done_of_yes (env : Env) (p r : Txt) (rest : List Txt)
    (hargv : env.argv = p :: r :: rest) (o1 e1 o2 e2 : Txt)
    (hplan : env.ollamaPlan = OllamaRes.spawned o1 e1 0)
    (hcode : env.ollamaCode = OllamaRes.spawned o2 e2 0)
    (h1 : normAnswer env.ans1 = ['y']) (h2 : normAnswer env.ans2 = ['y']) :
    (pymain env).final = Final.done ∧ (pymain env).exitCode = 0 := by
  simp [pymain, hargv, hplan, hcode, plan_phase, code_phase, query_ollama, h1, h2]

/-- C10: at both approval gates the typed answer is stripped of
surrounding whitespace and lowercased before the comparison with "y":
"Y" and "  y  " normalise to "y" while "yes" and "n" do not; at the first
gate the run ends abortedPlan exactly when the normalised answer differs
from "y" (and then exits 0); at the second gate — reached with both model
calls successful and the first gate passed — the run ends abortedExec
exactly when the normalised second answer differs from "y" (and then
exits 0). -/
theorem C10_gate_normalisation :
    (normAnswer "Y".toList = "y".toList ∧ normAnswer "  y  ".toList = "y".toList ∧
     normAnswer "yes".toList ≠ "y".toList ∧ normAnswer "n".toList ≠ "y".toList) ∧
    (∀ env : Env, ∀ p r : Txt, ∀ rest : List Txt, ∀ o e : Txt,
      env.argv = p :: r :: rest → env.ollamaPlan = OllamaRes.spawned o e 0 →
      (((pymain env).final = Final.abortedPlan ↔ ¬ (normAnswer env.ans1 = "y".toList)) ∧
       (¬ (normAnswer env.ans1 = "y".toList) → (pymain env).exitCode = 0))) ∧
    (∀ env : Env, ∀ p r : Txt, ∀ rest : List Txt, ∀ o1 e1 o2 e2 : Txt,
      env.argv = p :: r :: rest → env.ollamaPlan = OllamaRes.spawned o1 e1 0 →
      env.ollamaCode = OllamaRes.spawned o2 e2 0 →
      normAnswer env.ans1 = "y".toList →
      (((pymain env).final = Final.abortedExec ↔ ¬ (normAnswer env.ans2 = "y".toList)) ∧
       (¬ (normAnswer env.ans2 = "y".toList) → (pymain env).exitCode = 0))) := by
  refine ⟨⟨by decide, by decide, by decide, by decide⟩, ?_, ?_⟩
  · intro env p r rest o e hargv hplan
    constructor
    · constructor
      · intro hfin hy
        have h1 : normAnswer env.ans1 = ['y'] := by simpa using hy
        exact pymain_not_abortPlan env p r rest hargv o e hplan h1 hfin
      · intro hne
        have h1 : ¬ (normAnswer env.ans1 = ['y']) := by simpa using hne
        exact (pymain_abortPlan_of_no env p r rest hargv o e hplan h1).1
    · intro hne
      have h1 : ¬ (normAnswer env.ans1 = ['y']) := by simpa using hne
      exact (pymain_abortPlan_of_no env p r rest hargv o e hplan h1).2
  · intro env p r rest o1 e1 o2 e2 hargv hplan hcode hy1
    have h1 : normAnswer env.ans1 = ['y'] := by simpa using hy1
    constructor
    · constructor
      · intro hfin hy2
        have h2 : normAnswer env.ans2 = ['y'] := by simpa using hy2
        have hdone := pymain_done_of_yes env p r rest hargv o1 e1 o2 e2 hplan hcode h1 h2
        rw [hdone.1] at hfin
        exact Final.noConfusion hfin
      · intro hne
        have h2 : ¬ (normAnswer env.ans2 = ['y']) := by simpa using hne
        exact (pymain_abortExec_of_no env p r rest hargv o1 e1 o2 e2 hplan hcode h1 h2).1
    · intro hne
      have h2 : ¬ (normAnswer env.ans2 = ['y']) := by simpa using hne
      exact (pymain_abortExec_of_no env p r rest hargv o1 e1 o2 e2 hplan hcode h1 h2).2

end AiAgent
